import Mathlib

set_option autoImplicit false

deriving instance DecidableEq for Except

namespace LimesurveyDashboard

/-!
Shallow embedding of the cache-refresh-and-filter pipeline of the
LimeSurvey dashboard (`app.py`).

A pandas `DataFrame` of survey responses is modelled by `Frame`: the row
list plus one flag per relevant column recording whether that column is
present (in pandas a column is present for all rows or for none).
Timestamps are epoch seconds (`Int`); a missing start timestamp (`NaT`)
is `none`, and in pandas `NaT > cutoff` evaluates to `False`, so such a
row is never selected by the cutoff comparison.
-/

/-- One survey response row. `startdate` is `none` when the timestamp is
missing (`NaT`); `token` is `none` when the respondent token is null;
`is_completed` is the derived completion boolean. When the corresponding
column is absent from the frame the field value is irrelevant. -/
structure Record where
  startdate : Option Int
  lastpage : Int
  is_completed : Bool
  token : Option String
deriving DecidableEq

/-- A pandas dataframe of responses: which of the three relevant columns
exist, and the rows. `df.empty` corresponds to `rows = []`. -/
structure Frame where
  hasStartdate : Bool
  hasIsCompleted : Bool
  hasToken : Bool
  rows : List Record
deriving DecidableEq

/-- The boolean mask `df['startdate'] > cutoff_time` evaluated at one row:
`NaT` (missing) compares as `False`. -/
def startAfter (cutoff : Int) (r : Record) : Bool :=
  match r.startdate with
  | none => false
  | some t => decide (cutoff < t)

/-- `filter_by_cutoff` (app.py lines 92-96): if the frame is empty or has
no `startdate` column, return it unchanged; otherwise keep exactly the
rows whose start timestamp is strictly after the cutoff. -/
def filter_by_cutoff (df : Frame) (cutoff : Int) : Frame :=
  if df.rows.isEmpty || !df.hasStartdate then df
  else { df with rows := df.rows.filter (startAfter cutoff) }

/-- The completed-only step of `update_dashboard` (app.py lines 271-272):
`df = df.loc[df['is_completed']]`. Looking up a missing `is_completed`
column raises `KeyError`, modelled as `Except.error`. -/
def apply_completed_only (completedOnly : Bool) (df : Frame) : Except String Frame :=
  if !completedOnly then Except.ok df
  else if df.hasIsCompleted then
    Except.ok { df with rows := df.rows.filter (fun r => r.is_completed) }
  else Except.error "KeyError: is_completed"

/-- The metrics computed by `update_dashboard` (app.py lines 280-284). -/
structure Metrics where
  total : Nat
  n_tokens : Nat
  completed : Nat
  partialResponses : Nat
deriving DecidableEq

/-- What the dashboard body renders: the empty-dataframe message or the
metrics of the filtered frame. -/
inductive DashOutput where
  | emptyView
  | stats (m : Metrics)
deriving DecidableEq

/-- `len([x for x in list(df['token'].unique()) if x is not None])`:
the number of distinct non-null tokens. -/
def countUniqueTokens (rows : List Record) : Nat :=
  (((rows.map (fun r => r.token)).dedup).filter (fun t => t.isSome)).length

/-- The filter-and-aggregate part of `update_dashboard` (app.py lines
270-284): cutoff filter, optional completed-only restriction, the
empty/no-token guard, then the token and completion counts. The column
lookups `df['is_completed']` raise `KeyError` when the column is absent. -/
def dashboard_view (df_all : Frame) (cutoff : Int) (completedOnly : Bool) :
    Except String DashOutput := do
  let df ← apply_completed_only completedOnly (filter_by_cutoff df_all cutoff)
  if df.rows.isEmpty || !df.hasToken then
    pure DashOutput.emptyView
  else
    let total := df.rows.length
    let n_tokens := countUniqueTokens df.rows
    if df.hasIsCompleted then
      let completed := (df.rows.filter (fun r => r.is_completed)).length
      pure (DashOutput.stats ⟨total, n_tokens, completed, total - completed⟩)
    else
      Except.error "KeyError: is_completed"

/-!
Cache store. `CACHE_DIR` is a single directory; a filesystem state maps
file names inside it to their (fully written) contents. `os.replace` is
the atomic rename: one indivisible state transition.
-/

/-- The canonical cache file name, `survey_cache.pkl`, inside `CACHE_DIR`. -/
def cacheFileName : String := "survey_cache.pkl"

/-- Filesystem state of `CACHE_DIR`: contents by file name. -/
def FS : Type := String → Option Frame

/-- Content of a file, `none` when it does not exist. -/
def FS.get (fs : FS) (n : String) : Option Frame := fs n

/-- Write (create or overwrite) one file in the directory. -/
def FS.set (fs : FS) (n : String) (d : Frame) : FS :=
  fun k => if k = n then some d else fs k

/-- Delete one file from the directory. -/
def FS.remove (fs : FS) (n : String) : FS :=
  fun k => if k = n then none else fs k

/-- `os.replace(src, dst)`: atomically move `src` over `dst`. -/
def os_replace (fs : FS) (src dst : String) : FS :=
  match fs.get src with
  | none => fs
  | some d => (fs.remove src).set dst d

/-- Every filesystem state observable during `update_cache` (app.py lines
100-104), in order: the fetch runs first (a fetch failure raises before
any file is touched), then the dataframe is pickled to a fresh
temporary file `tmp` in `CACHE_DIR`, then `os.replace` moves it over the
canonical path in one atomic step. -/
def update_cache_states (fs : FS) (tmp : String) (fetched : Except String Frame) :
    List FS :=
  match fetched with
  | Except.error _ => [fs]
  | Except.ok df => [fs, fs.set tmp df, os_replace (fs.set tmp df) tmp cacheFileName]

/-- `update_cache` as a state transformer: the final filesystem state and
the exception, if one propagated (the fetch is the fallible step). -/
def update_cache_run (fs : FS) (tmp : String) (fetched : Except String Frame) :
    FS × Option String :=
  match fetched with
  | Except.error e => (fs, some e)
  | Except.ok df => (os_replace (fs.set tmp df) tmp cacheFileName, none)

/-- The log line printed by `poll_cache` when a refresh fails. -/
def poll_log (e : String) : String := "[poll_cache] failed: " ++ e

/-- The background polling loop `poll_cache` (app.py lines 120-126), run
over a finite schedule of iterations; each iteration supplies the
temporary-file name and the fetch outcome for that refresh. The
`try/except` catches any refresh failure, prints it, and the loop
continues with the next iteration. Returns the final filesystem state
and the failure log lines, in order. -/
def poll_cache_run (fs : FS) : List (String × Except String Frame) → FS × List String
  | [] => (fs, [])
  | (tmp, fetched) :: rest =>
    match update_cache_run fs tmp fetched with
    | (fs', none) => poll_cache_run fs' rest
    | (fs', some e) =>
      let r := poll_cache_run fs' rest
      (r.1, poll_log e :: r.2)

/-- Whether a fetch outcome is an exception. -/
def isFetchError : Except String Frame → Bool
  | Except.error _ => true
  | Except.ok _ => false

/-- `load_cached_data` (app.py lines 108-116): if the canonical cache
file is missing, run `update_cache` first (its exception propagates),
then read the cache file back. Returns the resulting filesystem state,
the loaded frame, and whether a refresh was triggered. -/
def load_cached_data (fs : FS) (tmp : String) (fetched : Except String Frame) :
    Except String (FS × Frame × Bool) :=
  match fs.get cacheFileName with
  | some df => Except.ok (fs, df, false)
  | none =>
    match update_cache_run fs tmp fetched with
    | (fs', none) =>
      match fs'.get cacheFileName with
      | some df => Except.ok (fs', df, true)
      | none => Except.error "FileNotFoundError"
    | (_, some e) => Except.error e

/-!
On-demand refresh rate limiting (app.py lines 261-267). The callback
reads the `last-refresh-store` value, and only when the refresh button
triggered it and at least 60 seconds have passed does it call
`update_cache()` and set `last = now`. If `update_cache()` raises, the
callback aborts before `last = now`, so the store keeps its old value.
Times are epoch seconds.
-/

/-- Outcome of one dashboard callback's refresh gate: how many times the
fetcher was invoked, the value the `last-refresh-store` holds afterwards
(unchanged when the callback raised), and whether it raised. -/
structure RefreshOutcome where
  fetches : Nat
  storedLast : Int
  raised : Bool
deriving DecidableEq

/-- The refresh gate of `update_dashboard`: `if 'refresh-button' in
triggered: if (now - last).total_seconds() >= 60: update_cache(); last =
now`. `fetchOk` is whether `update_cache()` succeeds. -/
def refresh_gate (now last : Int) (buttonTriggered fetchOk : Bool) : RefreshOutcome :=
  if buttonTriggered then
    if 60 ≤ now - last then
      if fetchOk then ⟨1, now, false⟩ else ⟨1, last, true⟩
    else ⟨0, last, false⟩
  else ⟨0, last, false⟩

/-- Total number of fetcher invocations caused by two consecutive
button-triggered refresh requests at times `t1` and `t2`, starting from
stored value `last0`; the second request reads the store left by the
first. -/
def two_refresh_requests (last0 t1 t2 : Int) (ok1 ok2 : Bool) : Nat :=
  let r1 := refresh_gate t1 last0 true ok1
  let r2 := refresh_gate t2 r1.storedLast true ok2
  r1.fetches + r2.fetches

/-!
Cutoff parsing (app.py lines 243-258). The callback receives the date
picker's raw value (an ISO `YYYY-MM-DD` string or `None`) and the raw
time text. Date parsing (`datetime.fromisoformat(...).date()`) and time
parsing (`hours, minutes = map(int, (cutoff_time or "").split(':'))`)
each sit in their own `try` block falling back to the previous cutoff's
components; the final `datetime(...)` constructor is outside both `try`
blocks, so out-of-range hour or minute values raise to the caller.
-/

/-- A calendar date as produced by `datetime.fromisoformat(...).date()`. -/
structure PyDate where
  year : Nat
  month : Nat
  day : Nat
deriving DecidableEq

/-- The process-wide `CUTOFF_TIME` (timezone fixed to Europe/Helsinki;
seconds are always zero because the constructor is never given any). -/
structure Cutoff where
  year : Nat
  month : Nat
  day : Nat
  hour : Int
  minute : Int
deriving DecidableEq

/-- Number of days in a month, with Gregorian leap years. -/
def daysInMonth (y m : Nat) : Nat :=
  if m = 2 then (if y % 4 = 0 ∧ (y % 100 ≠ 0 ∨ y % 400 = 0) then 29 else 28)
  else if m = 4 ∨ m = 6 ∨ m = 9 ∨ m = 11 then 30 else 31

/-- The range checks performed by the `datetime.date` constructor
(`MINYEAR = 1`, `MAXYEAR = 9999`). -/
def validDate (y m d : Nat) : Bool :=
  decide (1 ≤ y) && decide (y ≤ 9999) && decide (1 ≤ m) && decide (m ≤ 12) &&
    decide (1 ≤ d) && decide (d ≤ daysInMonth y m)

/-- The hour/minute range checks performed by the `datetime` constructor. -/
def validTime (h m : Int) : Bool :=
  decide (0 ≤ h) && decide (h ≤ 23) && decide (0 ≤ m) && decide (m ≤ 59)

/-- Whether a cutoff value is one the `datetime` constructor accepts;
every cutoff the program ever stores satisfies this. -/
def validCutoff (c : Cutoff) : Bool :=
  validDate c.year c.month c.day && validTime c.hour c.minute

/-- Value of one decimal digit character. -/
def digitVal (c : Char) : Option Nat :=
  if c.isDigit then some (c.toNat - 48) else none

/-- Accumulate decimal digits; any non-digit fails. -/
def parseDigitsAux : List Char → Nat → Option Nat
  | [], acc => some acc
  | c :: cs, acc =>
    match digitVal c with
    | some d => parseDigitsAux cs (acc * 10 + d)
    | none => none

/-- Parse a non-empty all-digit character list as a natural number. -/
def parseDigits (cs : List Char) : Option Nat :=
  match cs with
  | [] => none
  | _ => parseDigitsAux cs 0

/-- ASCII whitespace test (Python's `int` strips surrounding whitespace). -/
def isSpaceChar (c : Char) : Bool :=
  c == ' ' || c == '\t' || c == '\n' || c == '\r'

/-- Drop leading whitespace. -/
def dropSpaces (cs : List Char) : List Char := cs.dropWhile isSpaceChar

/-- Strip whitespace from both ends. -/
def trimChars (cs : List Char) : List Char :=
  dropSpaces ((dropSpaces cs.reverse).reverse)

/-- Python's `int(s)` on a character list: optional surrounding
whitespace, an optional sign, then decimal digits; anything else raises
`ValueError` (`none`). Digit-group underscores are not modelled — the
dashboard never feeds them. -/
def pyIntChars (cs0 : List Char) : Option Int :=
  match trimChars cs0 with
  | '-' :: rest => (parseDigits rest).map (fun n => -(n : Int))
  | '+' :: rest => (parseDigits rest).map (fun n => (n : Int))
  | rest => (parseDigits rest).map (fun n => (n : Int))

/-- Python's `s.split(':')` on a character list; always non-empty, and
the empty string yields `[""]`. -/
def splitColon : List Char → List (List Char)
  | [] => [[]]
  | c :: rest =>
    let r := splitColon rest
    if c = ':' then [] :: r
    else
      match r with
      | [] => [[c]]
      | g :: gs => (c :: g) :: gs

/-- `hours, minutes = map(int, (cutoff_time or "").split(':'))`: succeeds
exactly when the split yields two parts and both parse as integers; any
failure (wrong arity, non-numeric part, `None` input) raises inside the
`try` block, modelled as `none`. -/
def parseHHMM (s : Option String) : Option (Int × Int) :=
  match splitColon (s.getD "").toList with
  | [h, m] =>
    match pyIntChars h, pyIntChars m with
    | some hv, some mv => some (hv, mv)
    | _, _ => none
  | _ => none

/-- `datetime.fromisoformat(s).date()` restricted to the `YYYY-MM-DD`
form the date picker emits; other strings fail. Range errors also raise
inside the `try` block, so both map to `none`. -/
def fromisoformat_date (s : String) : Option PyDate :=
  match s.toList with
  | [y1, y2, y3, y4, '-', m1, m2, '-', d1, d2] =>
    match parseDigits [y1, y2, y3, y4], parseDigits [m1, m2], parseDigits [d1, d2] with
    | some y, some m, some d =>
      if validDate y m d then some ⟨y, m, d⟩ else none
    | _, _, _ => none
  | _ => none

/-- The date part chosen by lines 244-250: parse the picker value when
present, falling back to the previous cutoff's date on `None` or on any
parse failure. -/
def effectiveDatePart (prev : Cutoff) (cutoff_date : Option String) : PyDate :=
  match cutoff_date with
  | some s =>
    match fromisoformat_date s with
    | some dt => dt
    | none => ⟨prev.year, prev.month, prev.day⟩
  | none => ⟨prev.year, prev.month, prev.day⟩

/-- The hour/minute part chosen by lines 252-255: parse `"HH:MM"`,
falling back to the previous cutoff's hour and minute on failure. -/
def effectiveTimePart (prev : Cutoff) (cutoff_time : Option String) : Int × Int :=
  match parseHHMM cutoff_time with
  | some hm => hm
  | none => (prev.hour, prev.minute)

/-- The whole cutoff update (app.py lines 243-258): pick the date and
time parts with their fallbacks, then run the `datetime(...)`
constructor, which raises `ValueError` on out-of-range components —
outside any `try` block, so the error propagates to the caller. -/
def update_cutoff (prev : Cutoff) (cutoff_date cutoff_time : Option String) :
    Except String Cutoff :=
  let dp := effectiveDatePart prev cutoff_date
  let tp := effectiveTimePart prev cutoff_time
  if validDate dp.year dp.month dp.day && validTime tp.1 tp.2 then
    Except.ok ⟨dp.year, dp.month, dp.day, tp.1, tp.2⟩
  else
    Except.error "ValueError"

/-- The initial `CUTOFF_TIME` constant: 2025-05-20 18:00 Europe/Helsinki. -/
def initialCutoff : Cutoff := ⟨2025, 5, 20, 18, 0⟩

/-!
Heap model for the frame-effect behaviour of `filter_by_cutoff`: pandas
dataframes are heap objects, `df.loc[mask]` selects rows and `.copy()`
allocates a fresh object, while the `return df` branch returns the very
same object. A heap is a list of live frames addressed by index.
-/

/-- A heap of dataframe objects. -/
structure Heap where
  frames : List Frame

/-- The frame stored at an address, if the address is live. -/
def Heap.get (h : Heap) (i : Nat) : Option Frame := h.frames[i]?

/-- Allocate a fresh frame, returning the new heap and its address. -/
def Heap.alloc (h : Heap) (f : Frame) : Heap × Nat :=
  (⟨h.frames ++ [f]⟩, h.frames.length)

/-- `filter_by_cutoff` at the heap level: the degenerate branch returns
the input object itself; the filtering branch builds the row selection
and allocates a fresh copy of it (`.copy()`), leaving the input object
untouched. -/
def filter_by_cutoff_heap (h : Heap) (i : Nat) (cutoff : Int) : Heap × Nat :=
  match h.get i with
  | none => (h, i)
  | some df =>
    if df.rows.isEmpty || !df.hasStartdate then (h, i)
    else Heap.alloc h { df with rows := df.rows.filter (startAfter cutoff) }

/-!
Concrete data used by witnesses and counterexamples.
-/

/-- A well-formed response row. -/
def okRow (t : Int) (comp : Bool) (tok : String) : Record := ⟨some t, 3, comp, some tok⟩

/-- The scenario frame of spec section 8: ten records, six with start
timestamp after cutoff 100, three of those completed; one row has a null
token and one a missing start timestamp. -/
def scenDf : Frame := ⟨true, true, true,
  [okRow 10 true "a", okRow 110 true "b", okRow 120 true "c", okRow 130 true "d",
   okRow 20 false "e", okRow 140 false "f", okRow 150 false "g", okRow 160 false "h",
   ⟨some 30, 1, false, none⟩, ⟨none, 1, false, some "j"⟩]⟩

/-- A non-empty frame that lacks the `startdate` column. -/
def noStartdateDf : Frame := ⟨false, true, true, [⟨some 100, 1, true, some "a"⟩]⟩

/-- A non-empty frame that lacks the `is_completed` column. -/
def noCompletionDf : Frame := ⟨true, false, true, [⟨some 100, 3, true, some "tok1"⟩]⟩

/-- Another frame lacking the `is_completed` column. -/
def noCompletionDf2 : Frame := ⟨true, false, true, [⟨some 200, 2, false, none⟩]⟩

/-- A frame lacking the `token` column. -/
def tokenlessDf : Frame := ⟨true, true, false, [⟨some 100, 3, true, some "x"⟩]⟩

/-- A frame with all columns and no rows. -/
def emptyFrame : Frame := ⟨true, true, true, []⟩

/-- A frame none of whose rows start after cutoff 1000. -/
def lateCutoffDf : Frame :=
  ⟨true, true, true, [⟨some 10, 1, true, some "a"⟩, ⟨none, 1, true, some "b"⟩]⟩

/-- The empty cache directory. -/
def emptyFS : FS := fun _ => none

/-- A directory already holding a cached snapshot. -/
def cachedFS : FS := fun k => if k = cacheFileName then some scenDf else none

/-- A heap holding one dataframe. -/
def exHeap : Heap := ⟨[scenDf]⟩

/-!
Helper lemmas.
-/

theorem filter_by_cutoff_hasStartdate (df : Frame) (c : Int) :
    (filter_by_cutoff df c).hasStartdate = df.hasStartdate := by
  unfold filter_by_cutoff; split <;> rfl

theorem filter_by_cutoff_hasIsCompleted (df : Frame) (c : Int) :
    (filter_by_cutoff df c).hasIsCompleted = df.hasIsCompleted := by
  unfold filter_by_cutoff; split <;> rfl

theorem filter_by_cutoff_hasToken (df : Frame) (c : Int) :
    (filter_by_cutoff df c).hasToken = df.hasToken := by
  unfold filter_by_cutoff; split <;> rfl

theorem filter_by_cutoff_rows (df : Frame) (c : Int) (h : df.hasStartdate = true) :
    (filter_by_cutoff df c).rows = df.rows.filter (startAfter c) := by
  unfold filter_by_cutoff
  cases hrows : df.rows with
  | nil => simp [hrows]
  | cons r rs => simp [hrows, h]

theorem except_bind_ok {α β : Type} (a : α) (f : α → Except String β) :
    (do let x ← Except.ok a; f x : Except String β) = f a := rfl

theorem except_bind_error {α β : Type} (e : String) (f : α → Except String β) :
    (do let x ← Except.error e; f x : Except String β) = Except.error e := rfl

theorem except_pure_eq_ok {α : Type} (a : α) :
    (pure a : Except String α) = Except.ok a := rfl

theorem FS.get_set_self (fs : FS) (n : String) (d : Frame) :
    (fs.set n d).get n = some d := by
  simp [FS.get, FS.set]

theorem FS.get_set_ne (fs : FS) (n m : String) (d : Frame) (h : n ≠ m) :
    (fs.set m d).get n = fs.get n := by
  simp [FS.get, FS.set, h]

theorem os_replace_get_dst (fs : FS) (src dst : String) (d : Frame)
    (h : fs.get src = some d) : (os_replace fs src dst).get dst = some d := by
  simp [os_replace, h, FS.get_set_self]

/-- C1: for any snapshot frame carrying the `startdate` column (and the
derived `is_completed` column that every fetched record carries),
`filter_by_cutoff` returns exactly the records whose start timestamp is
strictly greater than the cutoff (a missing timestamp never qualifies);
with the completed-only flag set, the result is exactly those of these
records with `is_completed = true`, a sublist — hence a subset — of the
`completed_only = false` result. -/
theorem filter_and_completed_only_spec (df : Frame) (c : Int)
    (hsd : df.hasStartdate = true) (hic : df.hasIsCompleted = true) :
    (filter_by_cutoff df c).rows = df.rows.filter (startAfter c)
    ∧ ∃ out : Frame,
        apply_completed_only true (filter_by_cutoff df c) = Except.ok out
        ∧ out.rows = ((filter_by_cutoff df c).rows).filter (fun r => r.is_completed)
        ∧ out.rows.Sublist (filter_by_cutoff df c).rows := by
  have hrows := filter_by_cutoff_rows df c hsd
  have hic' : (filter_by_cutoff df c).hasIsCompleted = true := by
    rw [filter_by_cutoff_hasIsCompleted]; exact hic
  refine ⟨hrows,
    ⟨{ filter_by_cutoff df c with
        rows := ((filter_by_cutoff df c).rows).filter (fun r => r.is_completed) },
      ?_, rfl, ?_⟩⟩
  · simp [apply_completed_only, hic']
  · exact List.filter_sublist _

/-- C1 witness: the spec section 8 scenario frame at cutoff 100. -/
theorem filter_and_completed_only_spec_witness :
    (filter_by_cutoff scenDf 100).rows = scenDf.rows.filter (startAfter 100)
    ∧ ∃ out : Frame,
        apply_completed_only true (filter_by_cutoff scenDf 100) = Except.ok out
        ∧ out.rows = ((filter_by_cutoff scenDf 100).rows).filter (fun r => r.is_completed)
        ∧ out.rows.Sublist (filter_by_cutoff scenDf 100).rows :=
  filter_and_completed_only_spec scenDf 100 rfl rfl

/-- C2: during `update_cache`, every observable state of the canonical
cache path is either the full old content or the full new snapshot: the
new frame is first written to a distinct temporary file in the same
directory, and only the atomic `os.replace` changes the canonical path,
which afterwards holds the complete new snapshot. -/
theorem update_cache_atomic (fs : FS) (tmp : String) (df : Frame)
    (htmp : tmp ≠ cacheFileName) :
    (∀ s ∈ update_cache_states fs tmp (Except.ok df),
        s.get cacheFileName = fs.get cacheFileName ∨ s.get cacheFileName = some df)
    ∧ (update_cache_run fs tmp (Except.ok df)).1.get cacheFileName = some df := by
  have hmid : (fs.set tmp df).get cacheFileName = fs.get cacheFileName :=
    FS.get_set_ne fs cacheFileName tmp df (fun hh => htmp hh.symm)
  have hfin : (os_replace (fs.set tmp df) tmp cacheFileName).get cacheFileName = some df :=
    os_replace_get_dst _ _ _ _ (FS.get_set_self fs tmp df)
  constructor
  · intro s hs
    simp only [update_cache_states, List.mem_cons, List.not_mem_nil, or_false] at hs
    rcases hs with h1 | h1 | h1 <;> subst h1
    · exact Or.inl rfl
    · exact Or.inl hmid
    · exact Or.inr hfin
  · exact hfin

/-- C2 witness: a concrete write of the scenario frame over an empty
cache directory through the temporary file. -/
theorem update_cache_atomic_witness :
    ("tmp1a2b3c.pkl" : String) ≠ cacheFileName
    ∧ (update_cache_run emptyFS "tmp1a2b3c.pkl" (Except.ok scenDf)).1.get cacheFileName
        = some scenDf :=
  ⟨by decide, (update_cache_atomic emptyFS "tmp1a2b3c.pkl" scenDf (by decide)).2⟩

/-- C9: when the remote fetch raises, `update_cache` performs no file
operation at all — the only observable state is the initial one, the
resulting directory (and in particular the canonical cache file) is
unchanged, and the exception propagates to the caller. -/
theorem update_cache_fetch_failure (fs : FS) (tmp : String) (e : String) :
    update_cache_states fs tmp (Except.error e) = [fs]
    ∧ (update_cache_run fs tmp (Except.error e)).1 = fs
    ∧ (update_cache_run fs tmp (Except.error e)).2 = some e :=
  ⟨rfl, rfl, rfl⟩

/-- C7: a refresh failure inside the background polling loop is caught
and logged and the loop goes on: an iteration whose fetch raises leaves
the directory unchanged for the rest of the run and only prepends its
log line, and every iteration of any schedule is processed — the number
of log lines equals the number of failing iterations, never aborting
early. -/
theorem poll_cache_resilient :
    (∀ (fs : FS) (tmp e : String) (rest : List (String × Except String Frame)),
        poll_cache_run fs ((tmp, Except.error e) :: rest)
          = ((poll_cache_run fs rest).1, poll_log e :: (poll_cache_run fs rest).2))
    ∧ (∀ (fs : FS) (steps : List (String × Except String Frame)),
        ((poll_cache_run fs steps).2).length
          = (steps.filter (fun s => isFetchError s.2)).length) := by
  constructor
  · intro fs tmp e rest; rfl
  · intro fs steps
    induction steps generalizing fs with
    | nil => rfl
    | cons s rest ih =>
      obtain ⟨tmp, fetched⟩ := s
      cases fetched with
      | ok df => simpa [poll_cache_run, update_cache_run, isFetchError] using ih _
      | error e => simp [poll_cache_run, update_cache_run, isFetchError, ih]

/-- C8: `load_cached_data` with the canonical cache file present returns
its content without triggering any refresh and leaves the directory
untouched; with the cache file absent it triggers the refresh first, and
a successful refresh establishes the invariant that the canonical cache
file exists — the returned frame is the freshly fetched one. -/
theorem load_cached_data_spec :
    (∀ (fs : FS) (tmp : String) (fetched : Except String Frame) (df0 : Frame),
        fs.get cacheFileName = some df0 →
        load_cached_data fs tmp fetched = Except.ok (fs, df0, false))
    ∧ (∀ (fs : FS) (tmp : String) (df : Frame),
        fs.get cacheFileName = none →
        load_cached_data fs tmp (Except.ok df)
            = Except.ok ((update_cache_run fs tmp (Except.ok df)).1, df, true)
          ∧ (update_cache_run fs tmp (Except.ok df)).1.get cacheFileName = some df) := by
  constructor
  · intro fs tmp fetched df0 h
    simp [load_cached_data, h]
  · intro fs tmp df h
    have hfin : (os_replace (fs.set tmp df) tmp cacheFileName).get cacheFileName = some df :=
      os_replace_get_dst _ _ _ _ (FS.get_set_self fs tmp df)
    exact ⟨by simp [load_cached_data, h, update_cache_run, hfin], hfin⟩

/-- C8 witness: a read over a populated directory triggers no refresh; a
read over the empty directory refreshes and returns the fetched frame. -/
theorem load_cached_data_spec_witness :
    load_cached_data cachedFS "tmp1a2b3c.pkl" (Except.error "NetworkError")
        = Except.ok (cachedFS, scenDf, false)
    ∧ load_cached_data emptyFS "tmp1a2b3c.pkl" (Except.ok scenDf)
        = Except.ok ((update_cache_run emptyFS "tmp1a2b3c.pkl" (Except.ok scenDf)).1,
            scenDf, true) :=
  ⟨load_cached_data_spec.1 cachedFS _ _ scenDf rfl,
   (load_cached_data_spec.2 emptyFS _ scenDf rfl).1⟩

/-- C3 counterexample: with the stored last-refresh time 0, a button
refresh at t = 100 whose fetch raises does not advance the store (the
callback aborts before `last = now`), so a second request only 10
seconds later passes the 60-second check again — two fetcher invocations
within 60 seconds, refuting both "at most one actual Fetcher invocation"
and "measured from the last successful or attempted refresh". -/
theorem refresh_rate_limit_counterexample :
    two_refresh_requests 0 100 110 false true = 2 ∧ (110 : Int) - 100 < 60 := by decide

/-- C3 amended: when refreshes succeed, two on-demand requests within 60
seconds cause at most one fetcher invocation; the spacing is measured
from the last successful refresh only, and a request arriving while the
stored timestamp is less than 60 seconds old is silently ignored — no
fetch, no error, store unchanged — so the caller proceeds with the
existing snapshot. -/
theorem refresh_rate_limit_amended :
    (∀ last0 t1 t2 : Int, t2 - t1 < 60 →
        two_refresh_requests last0 t1 t2 true true ≤ 1)
    ∧ (∀ (now last : Int) (ok : Bool), now - last < 60 →
        refresh_gate now last true ok = ⟨0, last, false⟩) := by
  constructor
  · intro last0 t1 t2 h
    by_cases h1 : 60 ≤ t1 - last0
    · have h2 : ¬ 60 ≤ t2 - t1 := by omega
      simp [two_refresh_requests, refresh_gate, h1, h2]
    · by_cases h2 : 60 ≤ t2 - last0 <;>
        simp [two_refresh_requests, refresh_gate, h1, h2]
  · intro now last ok h
    have h' : ¬ 60 ≤ now - last := by omega
    simp [refresh_gate, h']

/-- C3 witness: after a successful refresh at t = 100, requests 30
seconds apart cause at most one fetch and the 130-second request is
ignored with the store unchanged. -/
theorem refresh_rate_limit_amended_witness :
    two_refresh_requests 0 100 130 true true ≤ 1
    ∧ refresh_gate 130 100 true true = ⟨0, 100, false⟩ :=
  ⟨refresh_rate_limit_amended.1 0 100 130 (by decide),
   refresh_rate_limit_amended.2 130 100 true (by decide)⟩

/-- C4 counterexample: a non-empty frame lacking the `startdate` column
is returned by `filter_by_cutoff` unchanged — its single row survives —
rather than as an empty view. -/
theorem filter_missing_startdate_counterexample :
    noStartdateDf.hasStartdate = false
    ∧ (filter_by_cutoff noStartdateDf 0).rows = noStartdateDf.rows
    ∧ (filter_by_cutoff noStartdateDf 0).rows ≠ [] := by decide

/-- C4 amended: `filter_by_cutoff` never errors; an empty snapshot
yields an empty view, and a cutoff matching nothing yields an empty
view; but a snapshot lacking the `startdate` column is returned
unchanged — an empty view only when the snapshot itself was empty. -/
theorem filter_degenerate_amended :
    (∀ (df : Frame) (c : Int), df.rows = [] → (filter_by_cutoff df c).rows = [])
    ∧ (∀ (df : Frame) (c : Int), df.hasStartdate = true →
        (∀ r ∈ df.rows, startAfter c r = false) → (filter_by_cutoff df c).rows = [])
    ∧ (∀ (df : Frame) (c : Int), df.hasStartdate = false → filter_by_cutoff df c = df) := by
  refine ⟨?_, ?_, ?_⟩
  · intro df c h; simp [filter_by_cutoff, h]
  · intro df c hsd h
    rw [filter_by_cutoff_rows df c hsd]
    exact List.filter_eq_nil_iff.mpr (by simpa using h)
  · intro df c h; simp [filter_by_cutoff, h]

/-- C4 witness: the empty frame, a frame whose rows all start at or
before the cutoff, and the frame without a `startdate` column. -/
theorem filter_degenerate_amended_witness :
    (filter_by_cutoff emptyFrame 0).rows = []
    ∧ (filter_by_cutoff lateCutoffDf 1000).rows = []
    ∧ filter_by_cutoff noStartdateDf 0 = noStartdateDf :=
  ⟨filter_degenerate_amended.1 emptyFrame 0 rfl,
   filter_degenerate_amended.2.1 lateCutoffDf 1000 rfl (by decide),
   filter_degenerate_amended.2.2 noStartdateDf 0 rfl⟩

/-- C5 counterexample: a snapshot lacking the `is_completed` column, one
row past the cutoff and a `token` column present, makes the dashboard
body raise `KeyError` at `df['is_completed'].sum()` even with the
completed-only flag clear — missing fields are not treated as zero
counts. -/
theorem dashboard_missing_fields_counterexample :
    noCompletionDf.hasIsCompleted = false
    ∧ dashboard_view noCompletionDf 0 false = Except.error "KeyError: is_completed" := by
  decide

/-- C5 amended: a snapshot lacking only the `token` field is handled
gracefully — the dashboard renders the empty view and never raises; but
a snapshot lacking the `is_completed` field raises `KeyError` whenever
the completed-only flag is set, and also with the flag clear whenever
the cutoff-filtered frame is non-empty and has a `token` column. -/
theorem dashboard_missing_fields_amended :
    (∀ (df : Frame) (c : Int) (flag : Bool), df.hasToken = false →
        (flag = true → df.hasIsCompleted = true) →
        dashboard_view df c flag = Except.ok DashOutput.emptyView)
    ∧ (∀ (df : Frame) (c : Int), df.hasIsCompleted = false →
        dashboard_view df c true = Except.error "KeyError: is_completed")
    ∧ (∀ (df : Frame) (c : Int), df.hasIsCompleted = false → df.hasToken = true →
        (filter_by_cutoff df c).rows ≠ [] →
        dashboard_view df c false = Except.error "KeyError: is_completed") := by
  refine ⟨?_, ?_, ?_⟩
  · intro df c flag htok hflag
    cases flag with
    | false =>
      have hXt : (filter_by_cutoff df c).hasToken = false := by
        rw [filter_by_cutoff_hasToken]; exact htok
      simp [dashboard_view, apply_completed_only, except_bind_ok, except_pure_eq_ok, hXt]
    | true =>
      have hXi : (filter_by_cutoff df c).hasIsCompleted = true := by
        rw [filter_by_cutoff_hasIsCompleted]; exact hflag rfl
      have hXt : (filter_by_cutoff df c).hasToken = false := by
        rw [filter_by_cutoff_hasToken]; exact htok
      simp [dashboard_view, apply_completed_only, except_bind_ok, except_pure_eq_ok, hXi, hXt]
  · intro df c hic
    have hXi : (filter_by_cutoff df c).hasIsCompleted = false := by
      rw [filter_by_cutoff_hasIsCompleted]; exact hic
    simp [dashboard_view, apply_completed_only, except_bind_error, hXi]
  · intro df c hic htok hne
    have hXi : (filter_by_cutoff df c).hasIsCompleted = false := by
      rw [filter_by_cutoff_hasIsCompleted]; exact hic
    have hXt : (filter_by_cutoff df c).hasToken = true := by
      rw [filter_by_cutoff_hasToken]; exact htok
    have hXe : (filter_by_cutoff df c).rows.isEmpty = false := by
      cases hr : (filter_by_cutoff df c).rows with
      | nil => exact absurd hr hne
      | cons a l => rfl
    simp [dashboard_view, apply_completed_only, except_bind_ok, except_pure_eq_ok, hXi, hXt, hXe, hne]

/-- C5 witness: the tokenless frame renders the empty view; the frame
without `is_completed` raises with the flag set and with it clear. -/
theorem dashboard_missing_fields_amended_witness :
    dashboard_view tokenlessDf 0 false = Except.ok DashOutput.emptyView
    ∧ dashboard_view noCompletionDf2 0 true = Except.error "KeyError: is_completed"
    ∧ dashboard_view noCompletionDf2 0 false = Except.error "KeyError: is_completed" :=
  ⟨dashboard_missing_fields_amended.1 tokenlessDf 0 false rfl (fun h => nomatch h),
   dashboard_missing_fields_amended.2.1 noCompletionDf2 0 rfl,
   dashboard_missing_fields_amended.2.2 noCompletionDf2 0 rfl rfl (by decide)⟩

theorem validCutoff_parts (cfg : Cutoff) (h : validCutoff cfg = true) :
    validDate cfg.year cfg.month cfg.day = true
      ∧ validTime cfg.hour cfg.minute = true := by
  simpa [validCutoff, Bool.and_eq_true] using h

theorem fromisoformat_date_valid (s : String) (dt : PyDate)
    (h : fromisoformat_date s = some dt) :
    validDate dt.year dt.month dt.day = true := by
  unfold fromisoformat_date at h
  split at h
  · split at h
    · split at h
      · rename_i hvalid
        rw [Option.some_inj] at h
        subst h
        simpa using hvalid
      · exact Option.noConfusion h
    · exact Option.noConfusion h
  · exact Option.noConfusion h

theorem effectiveDatePart_valid (prev : Cutoff) (ds : Option String)
    (hprev : validCutoff prev = true) :
    validDate (effectiveDatePart prev ds).year (effectiveDatePart prev ds).month
      (effectiveDatePart prev ds).day = true := by
  have hd := (validCutoff_parts prev hprev).1
  unfold effectiveDatePart
  cases ds with
  | none => simpa using hd
  | some s =>
    cases hf : fromisoformat_date s with
    | none => simp only [hf]; simpa using hd
    | some dt => simp only [hf]; simpa using fromisoformat_date_valid s dt hf

/-- C6 counterexample: with the initial cutoff active and a valid date
selected, the time string `"25:99"` parses as two integers, so no
fallback fires, and the unguarded `datetime(...)` constructor raises
`ValueError` to the caller instead of leaving the cutoff unchanged. -/
theorem cutoff_parsing_counterexample :
    update_cutoff initialCutoff (some "2025-05-20") (some "25:99")
      = Except.error "ValueError" := by decide

/-- C6 amended: a date string that fails ISO parsing falls back to the
previous cutoff's date, and a time string that fails the
`map(int, ... .split(':'))` step (e.g. `"garbage"`) falls back to the
previous hour and minute; when both fall back the active cutoff is
returned unchanged with no error. But a time string parsing as two
integers is only safe when they are a valid hour and minute — otherwise
the constructor raises (the counterexample) — so the no-error guarantee
holds on parse failures, not on all malformed `"HH:MM"` strings. -/
theorem cutoff_parsing_amended (prev : Cutoff) (ds ts : Option String)
    (hprev : validCutoff prev = true) :
    (parseHHMM ts = none →
        effectiveDatePart prev ds = ⟨prev.year, prev.month, prev.day⟩ →
        update_cutoff prev ds ts = Except.ok prev)
    ∧ (parseHHMM ts = none → ∃ c : Cutoff,
        update_cutoff prev ds ts = Except.ok c
          ∧ c.hour = prev.hour ∧ c.minute = prev.minute)
    ∧ (∀ h m : Int, parseHHMM ts = some (h, m) → validTime h m = true →
        update_cutoff prev ds ts = Except.ok
          ⟨(effectiveDatePart prev ds).year, (effectiveDatePart prev ds).month,
            (effectiveDatePart prev ds).day, h, m⟩) := by
  have hparts := validCutoff_parts prev hprev
  have hdp := effectiveDatePart_valid prev ds hprev
  refine ⟨?_, ?_, ?_⟩
  · intro hts hfall
    simp [update_cutoff, effectiveTimePart, hts, hfall, hparts.1, hparts.2]
  · intro hts
    refine ⟨⟨(effectiveDatePart prev ds).year, (effectiveDatePart prev ds).month,
      (effectiveDatePart prev ds).day, prev.hour, prev.minute⟩, ?_, rfl, rfl⟩
    simp [update_cutoff, effectiveTimePart, hts, hdp, hparts.2]
  · intro h m hts hval
    simp [update_cutoff, effectiveTimePart, hts, hdp, hval]

/-- C6 witness: `"garbage"` for both the date and the time leaves the
initial cutoff setting unchanged without raising. -/
theorem cutoff_parsing_amended_witness :
    update_cutoff initialCutoff (some "garbage") (some "garbage")
      = Except.ok initialCutoff :=
  (cutoff_parsing_amended initialCutoff (some "garbage") (some "garbage")
    (by decide)).1 (by decide) (by decide)

theorem filter_by_cutoff_heap_result (h : Heap) (i : Nat) (c : Int) (df : Frame)
    (hget : h.get i = some df) :
    (filter_by_cutoff_heap h i c).1.get (filter_by_cutoff_heap h i c).2
      = some (filter_by_cutoff df c) := by
  unfold filter_by_cutoff_heap
  rw [hget]
  cases hd : df.rows.isEmpty || !df.hasStartdate with
  | true => simpa [hd, filter_by_cutoff] using hget
  | false =>
    simp only [hd, Bool.false_eq_true, if_false, Heap.alloc, Heap.get,
      filter_by_cutoff]
    simp [hd, List.getElem?_concat_length]

/-- C10: `filter_by_cutoff` does not mutate its input: at the heap
level, the frame object at the input address is unchanged by the call,
the returned address holds exactly the pure filtering of the input
frame, in the filtering branch the result is a freshly allocated copy at
a different address, and two calls on equal input frames yield equal
result frames. -/
theorem filter_by_cutoff_no_mutation (h : Heap) (i : Nat) (c : Int) (df : Frame)
    (hget : h.get i = some df) :
    (filter_by_cutoff_heap h i c).1.get i = some df
    ∧ (filter_by_cutoff_heap h i c).1.get (filter_by_cutoff_heap h i c).2
        = some (filter_by_cutoff df c)
    ∧ ((df.rows.isEmpty || !df.hasStartdate) = false →
        (filter_by_cutoff_heap h i c).2 ≠ i)
    ∧ (∀ (h2 : Heap) (i2 : Nat), h2.get i2 = some df →
        (filter_by_cutoff_heap h2 i2 c).1.get (filter_by_cutoff_heap h2 i2 c).2
          = (filter_by_cutoff_heap h i c).1.get (filter_by_cutoff_heap h i c).2) := by
  have hlt : i < h.frames.length := by
    by_contra hcon
    push_neg at hcon
    rw [Heap.get, List.getElem?_eq_none hcon] at hget
    exact Option.noConfusion hget
  refine ⟨?_, filter_by_cutoff_heap_result h i c df hget, ?_, ?_⟩
  · unfold filter_by_cutoff_heap
    rw [hget]
    cases hd : df.rows.isEmpty || !df.hasStartdate with
    | true => simpa [hd] using hget
    | false =>
      simp only [hd, Bool.false_eq_true, if_false, Heap.alloc, Heap.get]
      rw [List.getElem?_append_left hlt]
      exact hget
  · intro hd
    unfold filter_by_cutoff_heap
    rw [hget]
    simp only [hd, Bool.false_eq_true, if_false, Heap.alloc]
    omega
  · intro h2 i2 hget2
    rw [filter_by_cutoff_heap_result h2 i2 c df hget2,
      filter_by_cutoff_heap_result h i c df hget]

/-- C10 witness: the scenario frame in a one-object heap; the call
leaves it in place and allocates the result at a fresh address. -/
theorem filter_by_cutoff_no_mutation_witness :
    (filter_by_cutoff_heap exHeap 0 100).1.get 0 = some scenDf
    ∧ (filter_by_cutoff_heap exHeap 0 100).2 ≠ 0 :=
  ⟨(filter_by_cutoff_no_mutation exHeap 0 100 scenDf rfl).1,
   (filter_by_cutoff_no_mutation exHeap 0 100 scenDf rfl).2.2.1 (by decide)⟩

end LimesurveyDashboard
